import Mathlib

/-!
Verification of the tool-calling planner core of the `teams-ai` Python package.

The development shallowly embeds the Python sources:
  - `teams/ai/augmentations/tools_augmentation.py` (plan builder),
  - `teams/ai/models/openai_model.py` (tool-call resolution loop),
  - `teams/ai/planners/action_planner.py` (submission handshake),
  - `teams/ai/prompts/message.py` (message data model).
Python dicts are embedded as association lists, machine exceptions as an
explicit `Except` error type, and external collaborators (the JSON library,
the model-invocation client, the transcript renderer) as function parameters.
Observable effects that the Python code performs on external collaborators
(model round-trips, handler invocations, whether rendering happened) are
returned as explicit counters/traces.
-/

/-- A JSON value, the embedding of the Python objects produced by
`json.loads` and stored in JSON-schema fields. Numbers are embedded as
integers (no claim touches fractional values). -/
inductive Json where
  | null
  | bool (b : Bool)
  | num (n : Int)
  | str (s : String)
  | arr (items : List Json)
  | obj (entries : List (String × Json))

/-- Python truthiness (`bool(x)`) of an embedded value: `None`/`False`/`0`,
the empty string and empty containers are falsy, everything else truthy. -/
def Json.truthy : Json → Bool
  | .null => false
  | .bool b => b
  | .num n => n != 0
  | .str s => !s.isEmpty
  | .arr items => !items.isEmpty
  | .obj entries => !entries.isEmpty

/-- Python `len(x)`: defined for sized values (strings, lists, dicts) and a
`TypeError` (here `Option.none`) otherwise. -/
def Json.pyLen : Json → Option Nat
  | .str s => some s.length
  | .arr items => some items.length
  | .obj entries => some entries.length
  | _ => none

/-- Python `d[k]` / `k in d` combined for a JSON object: the value when the
key is present. Non-objects yield `none` (the modeled schemas are objects). -/
def Json.get (j : Json) (key : String) : Option Json :=
  match j with
  | .obj entries => entries.lookup key
  | _ => none

/-- `message.py`: `Citation`. -/
structure Citation where
  content : String
  title : Option String
  url : Option String
  filepath : Option String

/-- `message.py`: `MessageContext` (citations plus intent). -/
structure MessageContext where
  citations : List Citation
  intent : String

/-- `message.py`: `ActionFunction` — the function name plus the raw JSON
arguments string generated by the model. -/
structure ActionFunction where
  arguments : String
  name : String

/-- `message.py`: `ActionCall` — one tool call requested by the model, with
its opaque correlation id. `type` is the literal "function". -/
structure ActionCall where
  id : String
  function : ActionFunction
  type : String := "function"

/-- Modelled from the spec: the legacy single `function_call` field of a
message (`function_call.py` is not under `src/`); carried but never consumed
by the verified code. -/
structure FunctionCall where
  name : Option String := none
  arguments : Option String := none

/-- `message.py`: `Message[T]` — role, optional content of type `T`, plus the
optional context / legacy function call / name / action-call list. -/
structure Message (α : Type) where
  role : String
  content : Option α := none
  context : Option MessageContext := none
  functionCall : Option FunctionCall := none
  name : Option String := none
  actionCalls : Option (List ActionCall) := none

/-- The `Union[str, List[ActionCall]]` content type a tools-augmented
response message can carry. -/
inductive ToolsContent where
  | text (s : String)
  | calls (cs : List ActionCall)

/-- Python truthiness of the union content: a string is truthy iff nonempty,
a list iff nonempty. -/
def ToolsContent.truthy : ToolsContent → Bool
  | .text s => !s.isEmpty
  | .calls cs => !cs.isEmpty

/-- `isinstance(content, list)` on the union content. -/
def ToolsContent.isCallsList : ToolsContent → Bool
  | .text _ => false
  | .calls _ => true

/-- Modelled from the spec: `CompletionResult` (`prompt_response.py` is not
under `src/`): status string (default "success"), optional echoed input,
optional message, optional error text; statuses are the strings used by
`openai_model.py`. -/
structure PromptResponse (α : Type) where
  status : String := "success"
  input : Option (Message String) := none
  message : Option (Message α) := none
  error : Option String := none

/-- Modelled from the spec: `Plan` command variants (`planners/plan.py` is
not under `src/`): `PredictedDoCommand` carries an action name and the
JSON-parsed parameters; `PredictedSayCommand` wraps the full response
message (the Python `cast(Message[str], ...)` is a runtime no-op, so the
wrapped message keeps the union-typed content). -/
inductive PredictedCommand where
  | doCommand (action : String) (parameters : Json)
  | sayCommand (response : Message ToolsContent)

/-- Modelled from the spec: a `Plan` is an ordered command list, empty by
default. -/
structure Plan where
  commands : List PredictedCommand := []

/-- The slice of the state store read by the plan builder: whether the
`ACTIONS_HISTORY` tracking key is present (with its stored value). -/
structure AugMemory where
  actionsHistory : Option Json

/-- The `for tool in tool_calls` loop of `create_plan_from_response`: one
`PredictedDoCommand` per call, in order, with `parameters =
json.loads(call.function.arguments)`; the first parse failure propagates. -/
def buildDoCommands (loads : String → Except String Json) :
    List ActionCall → Except String (List PredictedCommand)
  | [] => Except.ok []
  | tool :: rest => do
    let parameters ← loads tool.function.arguments
    let cmds ← buildDoCommands loads rest
    Except.ok (PredictedCommand.doCommand tool.function.name parameters :: cmds)

/-- `ToolsAugmentation.create_plan_from_response`, state-threaded: the
returned triple carries the plan together with the (unmodified) memory and
response, making the absence of writes explicit. `json.loads` is the
external JSON library, passed as `loads`. -/
def createPlanFromResponse (loads : String → Except String Json)
    (memory : AugMemory) (response : PromptResponse ToolsContent) :
    Except String (Plan × AugMemory × PromptResponse ToolsContent) :=
  match response.message with
  | some msg =>
    match msg.content with
    | some c =>
      if c.truthy then
        match c with
        | ToolsContent.calls toolCalls =>
          if memory.actionsHistory.isSome then do
            let commands ← buildDoCommands loads toolCalls
            Except.ok ({ commands := commands }, memory, response)
          else
            Except.ok ({ commands := [PredictedCommand.sayCommand msg] }, memory, response)
        | ToolsContent.text _ =>
          Except.ok ({ commands := [PredictedCommand.sayCommand msg] }, memory, response)
      else Except.ok ({ commands := [] }, memory, response)
    | none => Except.ok ({ commands := [] }, memory, response)
  | none => Except.ok ({ commands := [] }, memory, response)

/-- The `tool_choice` completion setting: the strings `"auto"`, `"none"`,
`"required"`, or the dict pinning a single function
(`isinstance(tool_choice, dict)` in the source). -/
inductive ToolChoice where
  | autoChoice
  | noneChoice
  | requiredChoice
  | pinned (name : String)

/-- `isinstance(tool_choice, dict)` for an optional tool choice. -/
def isPinnedChoice : Option ToolChoice → Bool
  | some (ToolChoice.pinned _) => true
  | _ => false

/-- `tool_choice == "none"` for an optional tool choice. -/
def isNoneChoice : Option ToolChoice → Bool
  | some ToolChoice.noneChoice => true
  | _ => false

/-- `chat.ChatCompletionToolMessageParam`: a tool-output message tagged with
the correlation id of the call it answers (`role` is always `"tool"`). -/
structure ToolMessage where
  toolCallId : String
  role : String
  content : String

/-- The slice of the state store touched by
`ActionPlanner._handle_action_tools`. Python dicts are association lists;
an absent `SUBMIT_TOOL_OUTPUTS_MAP` key and the `{}` it is reset to are both
the empty list (the code reads the key through `... or {}`). The submission
flag holds an arbitrary stored value, so it is kept as a raw `Json`, with
`Json.null` for an absent key. -/
structure PlannerMemory where
  submitToolOutputsVariable : Json
  submitToolOutputsMap : List (String × String)
  submitToolOutputsMessages : List ToolMessage
  actionOutputs : Option (List (String × String))
  tempToolChoice : Option ToolChoice
  tempParallelToolCalls : Option Bool

/-- The `for action in action_outputs` loop of `_handle_action_tools`: one
tool-output message per action name found in the stored map, tagged with the
stored correlation id, in iteration order; names missing from the map (and
everything, when the map is empty) are skipped. -/
def buildToolOutputs (toolMap : List (String × String)) :
    List (String × String) → List ToolMessage
  | [] => []
  | (action, output) :: rest =>
    if toolMap.isEmpty then buildToolOutputs toolMap rest
    else
      match toolMap.lookup action with
      | some toolCallId =>
        { toolCallId := toolCallId, role := "tool", content := output } ::
          buildToolOutputs toolMap rest
      | none => buildToolOutputs toolMap rest

/-- The `elif memory.get(SUBMIT_TOOL_OUTPUTS_VARIABLE) is True` branch of
`_handle_action_tools`: build the tool-output messages from the
host-supplied `action_outputs` and the stored map; stage them if at least
one was built, otherwise reset the handshake state to a fresh turn. -/
def submitToolOutputsStep (memory : PlannerMemory) : PlannerMemory :=
  let actionOutputs := memory.actionOutputs.getD []
  let toolMap := memory.submitToolOutputsMap
  let toolOutputs := buildToolOutputs toolMap actionOutputs
  if toolOutputs.length > 0 then
    { memory with submitToolOutputsMessages := toolOutputs }
  else
    { memory with
        submitToolOutputsVariable := Json.bool false,
        submitToolOutputsMap := [],
        submitToolOutputsMessages := [] }

/-- `ActionPlanner._handle_action_tools`: a falsy submission flag means a
fresh turn (store the template's `tool_choice`/parallel policy into scratch
state and reset both handshake keys); a flag that `is True` means the
deferred-submission path; any other truthy value matches neither branch and
leaves the store untouched. -/
def handleActionTools (memory : PlannerMemory)
    (templateToolChoice : Option ToolChoice)
    (templateParallelToolCalls : Option Bool) : PlannerMemory :=
  if !memory.submitToolOutputsVariable.truthy then
    { memory with
        tempToolChoice := templateToolChoice,
        tempParallelToolCalls := templateParallelToolCalls,
        submitToolOutputsMap := [],
        submitToolOutputsMessages := [] }
  else
    match memory.submitToolOutputsVariable with
    | Json.bool true => submitToolOutputsStep memory
    | _ => memory

/-- `chat.ChatCompletionMessageToolCall.function`: name plus raw JSON
arguments string. -/
structure ChatToolCallFunction where
  name : String
  arguments : String

/-- `chat.ChatCompletionMessageToolCall`: a tool call of a completion, with
the model-issued correlation id. -/
structure ChatToolCall where
  id : String
  function : ChatToolCallFunction

/-- `completion.choices[0].message` as consumed by `complete_prompt`: role,
optional text content, optional tool-call list, and the optional Azure
`context` attribute (`hasattr(message, "context")` is modeled as `isSome`;
the external `MessageContext.from_dict` parse is modeled as the
already-parsed context). -/
structure CompletionMessage where
  role : String
  content : Option String := none
  toolCalls : Option (List ChatToolCall) := none
  context : Option MessageContext := none

/-- A transcript entry (`chat.ChatCompletionMessageParam`): the three
rendered-prompt parameter kinds, the assistant tool-call message appended by
`messages.append(cast(..., response_message))`, and tool-output messages. -/
inductive ChatMessage where
  | userParam (content : String) (name : Option String)
  | assistantParam (content : String) (name : Option String)
  | systemParam (content : String) (name : Option String)
  | assistantToolCalls (message : CompletionMessage)
  | toolMessageParam (toolCallId : String) (content : String)

/-- The `for msg in res.output` conversion loop of `complete_prompt`:
assistant and system roles keep their role, every other role becomes a user
param; absent content becomes `""`; an optional name is carried over. -/
def toChatParam (msg : Message String) : ChatMessage :=
  match msg.role with
  | "assistant" => ChatMessage.assistantParam (msg.content.getD "") msg.name
  | "system" => ChatMessage.systemParam (msg.content.getD "") msg.name
  | _ => ChatMessage.userParam (msg.content.getD "") msg.name

/-- Modelled from the spec: `OpenAIFunction` (`openai_function.py` is not
under `src/`): the `ToolDescriptor` of §3 — name, description, JSON-schema
parameters (a JSON object, `Json.null` when absent) and the bound handler.
A handler is the pure result of the keyword-argument call, recorded as a
function from the parsed argument dict to the returned text. -/
structure OpenAIFunction where
  name : String
  description : Option String
  parameters : Json
  handler : List (String × Json) → String

/-- Modelled from the spec: `ChatCompletionAction`
(`chat_completion_action.py` is not under `src/`): the declared action
catalog entry consumed by `complete_prompt`. -/
structure ChatCompletionAction where
  name : String
  description : Option String
  parameters : Json

/-- An entry of the `temp.tools` handler registry: the code reads
`tools_handlers.get(action.name).func`. -/
structure ActionHandlerEntry where
  func : List (String × Json) → String

/-- The slice of `template.config` read by `complete_prompt`:
`completion.include_tools`, `completion.tool_choice`,
`completion.parallel_tool_calls`, `template.actions`, and the
`augmentation.augmentation_type` of the optional `config.augmentation`
object (`none` when no augmentation object is configured). -/
structure TemplateConfig where
  includeTools : Bool
  toolChoice : Option ToolChoice
  parallelToolCalls : Option Bool
  augmentationType : Option String
  actions : Option (List ChatCompletionAction)
  maxInputTokens : Nat

/-- `augmentation and augmentation.augmentation_type == "none"`. -/
def augTypeIsNone : Option String → Bool
  | some t => t == "none"
  | none => false

/-- The result of the external `render_as_messages` call: overflow flag,
token count, and the rendered transcript. -/
structure RenderResult where
  tooLong : Bool
  length : Nat
  output : List (Message String)

/-- The exceptions the embedded code can raise. `stopIteration` is the
`next()` call on an exhausted generator (escaping the coroutine it surfaces
as a `RuntimeError`, aborting the turn either way); `jsonDecodeError` is a
`json.loads` failure; `typeError` is `len()` of an unsized value or `**` of
a non-mapping; `nonTermination` marks fuel exhaustion of the embedding and
corresponds to no Python behavior reachable in finitely many rounds. -/
inductive PyErr where
  | stopIteration
  | jsonDecodeError (message : String)
  | typeError
  | nonTermination

/-- `curr_function.parameters["required"] if curr_function.parameters and
"required" in curr_function.parameters else None`. -/
def requiredArgsOf (f : OpenAIFunction) : Option Json :=
  if f.parameters.truthy then f.parameters.get "required" else none

/-- `if required_args: if len(required_args) > len(curr_args)` — the
count-based required-arguments check shared by both resolution paths.
Returns whether the call must be skipped/aborted; `len` of an unsized value
raises. -/
def requiredCheck (requiredArgs : Option Json) (currArgs : Json) :
    Except PyErr Bool :=
  match requiredArgs with
  | some ra =>
    if ra.truthy then
      match ra.pyLen, currArgs.pyLen with
      | some lenRequired, some lenCurr => Except.ok (decide (lenRequired > lenCurr))
      | _, _ => Except.error PyErr.typeError
    else Except.ok false
  | none => Except.ok false

/-- `OpenAIModel._handle_function_response`: invoke the bound handler with
the parsed keyword arguments when there is at least one, with none
otherwise; non-mapping arguments raise. -/
def handleFunctionResponse (handler : List (String × Json) → String)
    (currArgs : Json) : Except PyErr String :=
  match currArgs.pyLen with
  | some n =>
    if n > 0 then
      match currArgs with
      | Json.obj entries => Except.ok (handler entries)
      | _ => Except.error PyErr.typeError
    else Except.ok (handler [])
  | none => Except.error PyErr.typeError

/-- `OpenAIModel._handle_multiple_tool_calls`: resolve every call in order.
`next(tool for tool in tools if tool.name == tool_name)` has no default, so
an unregistered tool name raises `StopIteration` (the `if not curr_function:
continue` guard in the source is unreachable); a failed count-based required
check skips the call; otherwise the handler runs and a tool-output message
tagged with the call's id is appended. The returned trace lists the names of
the handlers that were invoked, in order. -/
def handleMultipleToolCalls (loads : String → Except String Json)
    (tools : List OpenAIFunction) (messages : List ChatMessage)
    (trace : List String) :
    List ChatToolCall → Except PyErr (List ChatMessage × List String)
  | [] => Except.ok (messages, trace)
  | toolCall :: rest =>
    let toolName := toolCall.function.name
    match tools.find? (fun t => t.name == toolName) with
    | none => Except.error PyErr.stopIteration
    | some currFunction =>
      match (loads toolCall.function.arguments).mapError PyErr.jsonDecodeError with
      | Except.error e => Except.error e
      | Except.ok currArgs =>
        match requiredCheck (requiredArgsOf currFunction) currArgs with
        | Except.error e => Except.error e
        | Except.ok true => handleMultipleToolCalls loads tools messages trace rest
        | Except.ok false =>
          match handleFunctionResponse currFunction.handler currArgs with
          | Except.error e => Except.error e
          | Except.ok functionResponse =>
            handleMultipleToolCalls loads tools
              (messages ++ [ChatMessage.toolMessageParam toolCall.id functionResponse])
              (trace ++ [toolName]) rest

/-- The state the resolution loop terminates with: the completion message at
termination, the transcript, the handler-invocation trace, and the number of
model round-trips beyond the first. -/
structure ModelTurnResult where
  finalMessage : CompletionMessage
  messages : List ChatMessage
  handlerCalls : List String
  extraInvocations : Nat

/-- The `while tool_calls and len(tool_calls) > 0` loop of
`complete_prompt`. `client` is the external model-invocation endpoint
(`self._client.chat.completions.create` restricted to its observable
input/output); `fuel` bounds the number of further round-trips the embedding
unfolds — every policy exit and the empty-calls exit are reached without
consuming fuel. On `break` the current completion is returned unresolved. -/
def toolsLoop (loads : String → Except String Json)
    (client : List ChatMessage → CompletionMessage)
    (toolChoice : Option ToolChoice) (parallelToolCalls : Option Bool)
    (tools : List OpenAIFunction) :
    Nat → CompletionMessage → List ChatMessage → List String → Nat →
    Except PyErr ModelTurnResult
  | fuel, current, messages, trace, extra =>
    match current.toolCalls.getD [] with
    | [] => Except.ok ⟨current, messages, trace, extra⟩
    | tc0 :: rest =>
      if (parallelToolCalls.getD false) = false ∧ (tc0 :: rest).length > 1 then
        Except.ok ⟨current, messages, trace, extra⟩
      else if isPinnedChoice toolChoice = true ∧ (tc0 :: rest).length > 1 then
        Except.ok ⟨current, messages, trace, extra⟩
      else if isNoneChoice toolChoice = true then
        Except.ok ⟨current, messages, trace, extra⟩
      else
        match fuel with
        | 0 => Except.error PyErr.nonTermination
        | fuel' + 1 =>
          let messages1 := messages ++ [ChatMessage.assistantToolCalls current]
          match toolChoice with
          | some (ToolChoice.pinned functionName) =>
            match tools.find? (fun t => t.name == functionName) with
            | none => Except.error PyErr.stopIteration
            | some currFunction =>
              match (loads tc0.function.arguments).mapError PyErr.jsonDecodeError with
              | Except.error e => Except.error e
              | Except.ok currArgs =>
                match requiredCheck (requiredArgsOf currFunction) currArgs with
                | Except.error e => Except.error e
                | Except.ok true => Except.ok ⟨current, messages1, trace, extra⟩
                | Except.ok false =>
                  match handleFunctionResponse currFunction.handler currArgs with
                  | Except.error e => Except.error e
                  | Except.ok functionResponse =>
                    let messages2 := messages1 ++
                      [ChatMessage.toolMessageParam tc0.id functionResponse]
                    toolsLoop loads client toolChoice parallelToolCalls tools
                      fuel' (client messages2) messages2
                      (trace ++ [functionName]) (extra + 1)
          | _ =>
            let currMessageLength := messages1.length
            match handleMultipleToolCalls loads tools messages1 trace (tc0 :: rest) with
            | Except.error e => Except.error e
            | Except.ok (messages2, trace2) =>
              if messages2.length = currMessageLength then
                Except.ok ⟨current, messages2, trace2, extra⟩
              else
                toolsLoop loads client toolChoice parallelToolCalls tools
                  fuel' (client messages2) messages2 trace2 (extra + 1)

/-- The `input` computation at the end of `complete_prompt`: echo the last
rendered message when it is not the only one and has the user role. -/
def responseInput (output : List (Message String)) : Option (Message String) :=
  let lastMessage := output.length - 1
  match output.get? lastMessage with
  | some m => if lastMessage > 0 && m.role == "user" then some m else none
  | none => none

/-- The `Message(role=..., content=..., context=...)` built from the final
completion at the end of `complete_prompt`. -/
def msgOfCompletion (c : CompletionMessage) : Message String :=
  { role := c.role, content := c.content, context := c.context }

/-- The observable outcome of `complete_prompt`: the returned
`PromptResponse`, how many model invocations happened, which handlers were
invoked (in order), and whether `render_as_messages` was reached. -/
structure CompleteResult where
  response : PromptResponse String
  invocations : Nat
  handlerCalls : List String
  rendered : Bool

/-- The body of `complete_prompt` past the tools-configuration checks and
the `too_long` check: build the tool table from the declared actions and the
registered handlers, convert the rendered transcript, invoke the model once,
and run the resolution loop only when an augmentation with
`augmentation_type == "none"` is configured, tools are enabled and the first
completion requests tool calls. -/
def completeMain (loads : String → Except String Json)
    (template : TemplateConfig)
    (tempTools : Option (List (String × ActionHandlerEntry)))
    (render : RenderResult)
    (client : List ChatMessage → CompletionMessage) (fuel : Nat) :
    Except PyErr CompleteResult :=
  let tools : List OpenAIFunction :=
    if template.includeTools then
      (template.actions.getD []).filterMap (fun action =>
        match (tempTools.getD []).lookup action.name with
        | some entry =>
          some ⟨action.name, action.description, action.parameters, entry.func⟩
        | none => none)
    else []
  let messages := render.output.map toChatParam
  let completion := client messages
  let loopRes : Except PyErr ModelTurnResult :=
    if augTypeIsNone template.augmentationType && template.includeTools
        && !(completion.toolCalls.getD []).isEmpty then
      toolsLoop loads client template.toolChoice template.parallelToolCalls
        tools fuel completion messages [] 0
    else Except.ok ⟨completion, messages, [], 0⟩
  match loopRes with
  | Except.error e => Except.error e
  | Except.ok r =>
    Except.ok ⟨{ status := "success",
                 input := responseInput render.output,
                 message := some (msgOfCompletion r.finalMessage) },
               1 + r.extraInvocations, r.handlerCalls, true⟩

/-- `OpenAIModel.complete_prompt`. The three tools-configuration checks
return a `tools_error` result before rendering and before any model
invocation; a `too_long` render result returns before any model invocation;
otherwise `completeMain` runs. The `except openai.APIError` conversion is
outside the embedding: the modeled external client is total. -/
def completePrompt (loads : String → Except String Json)
    (template : TemplateConfig)
    (tempTools : Option (List (String × ActionHandlerEntry)))
    (render : RenderResult)
    (client : List ChatMessage → CompletionMessage) (fuel : Nat) :
    Except PyErr CompleteResult :=
  if template.includeTools && (template.actions.getD []).isEmpty then
    Except.ok ⟨{ status := "tools_error", error := some "Missing actions" }, 0, [], false⟩
  else if template.includeTools && (tempTools.getD []).isEmpty then
    Except.ok ⟨{ status := "tools_error", error := some "Missing tools handlers" }, 0, [], false⟩
  else if template.includeTools &&
      ((template.actions.getD []).length != (tempTools.getD []).length) then
    Except.ok ⟨{ status := "tools_error",
                 error := some "Number of actions does not match number of tool handlers" },
               0, [], false⟩
  else if render.tooLong then
    Except.ok ⟨{ status := "too_long",
                 error := some ("the generated chat completion prompt had a length of "
                   ++ toString render.length
                   ++ " tokens which exceeded the max_input_tokens of "
                   ++ toString template.maxInputTokens) },
               0, [], true⟩
  else completeMain loads template tempTools render client fuel

/-- A concrete stand-in for the external `json.loads`, used by the concrete
witnesses and counterexamples: a few tagged argument strings parse to fixed
objects, everything else fails to parse. -/
def loadsFixture : String → Except String Json
  | "argsEmpty" => Except.ok (Json.obj [])
  | "argsA" => Except.ok (Json.obj [("a", Json.num 1)])
  | "argsB" => Except.ok (Json.obj [("b", Json.num 1)])
  | _ => Except.error "Expecting value: line 1 column 1 (char 0)"

/-- A registered tool without schema constraints. -/
def alphaTool : OpenAIFunction :=
  { name := "alpha", description := none, parameters := Json.null,
    handler := fun _ => "alpha-output" }

/-- A second registered tool without schema constraints. -/
def betaTool : OpenAIFunction :=
  { name := "beta", description := none, parameters := Json.null,
    handler := fun _ => "beta-output" }

/-- Three sibling tool calls of which the middle one names a tool that is
not registered. -/
def ghostCalls : List ChatToolCall :=
  [{ id := "id1", function := { name := "alpha", arguments := "argsEmpty" } },
   { id := "id2", function := { name := "ghost", arguments := "argsEmpty" } },
   { id := "id3", function := { name := "beta", arguments := "argsEmpty" } }]

/-- A registered tool whose schema lists `"a"` as its only required
argument. -/
def visitTool : OpenAIFunction :=
  { name := "visit", description := none,
    parameters := Json.obj [("required", Json.arr [Json.str "a"])],
    handler := fun _ => "visited" }

/-- A call to `visit` whose arguments parse to `(b, 1)` only: the required
name `"a"` is absent, but the argument count equals the required count. -/
def visitCall : ChatToolCall :=
  { id := "id1", function := { name := "visit", arguments := "argsB" } }

/-- A planner state whose submission flag holds the truthy string "true"
(not the boolean `True`). -/
def truthyFlagMemory : PlannerMemory :=
  { submitToolOutputsVariable := Json.str "true",
    submitToolOutputsMap := [("lookup", "call-1")],
    submitToolOutputsMessages := [],
    actionOutputs := some [("lookup", "42")],
    tempToolChoice := none,
    tempParallelToolCalls := none }

/-- A planner state with an absent submission flag and a stale map. -/
def freshMemory : PlannerMemory :=
  { submitToolOutputsVariable := Json.null,
    submitToolOutputsMap := [("stale", "old-id")],
    submitToolOutputsMessages := [],
    actionOutputs := none,
    tempToolChoice := none,
    tempParallelToolCalls := none }

/-- A planner state awaiting submission, with host-supplied outputs covering
every stored map entry. -/
def awaitingMemory : PlannerMemory :=
  { submitToolOutputsVariable := Json.bool true,
    submitToolOutputsMap := [("lookup", "call-1"), ("send", "call-2")],
    submitToolOutputsMessages := [],
    actionOutputs := some [("lookup", "42"), ("send", "ok")],
    tempToolChoice := none,
    tempParallelToolCalls := none }

/-- A plan-builder state with the `ACTIONS_HISTORY` key present. -/
def historyMemory : AugMemory := { actionsHistory := some (Json.arr []) }

/-- The two action calls of `planResponse`. -/
def planCalls : List ActionCall :=
  [{ id := "id1", function := { arguments := "argsA", name := "alpha" } },
   { id := "id2", function := { arguments := "argsB", name := "beta" } }]

/-- The message of `planResponse`. -/
def planMessage : Message ToolsContent :=
  { role := "assistant", content := some (ToolsContent.calls planCalls) }

/-- A validated response carrying two action calls. -/
def planResponse : PromptResponse ToolsContent :=
  { message := some planMessage }

/-- A template with tools enabled, two declared actions, parallel calls
disallowed and a `"none"`-type augmentation. -/
def toolsTemplate : TemplateConfig :=
  { includeTools := true, toolChoice := none, parallelToolCalls := some false,
    augmentationType := some "none",
    actions := some [{ name := "alpha", description := none, parameters := Json.null },
                     { name := "beta", description := none, parameters := Json.null }],
    maxInputTokens := 100 }

/-- `toolsTemplate` with a non-`"none"` augmentation type. -/
def seqAugTemplate : TemplateConfig :=
  { toolsTemplate with augmentationType := some "sequence" }

/-- A template with tools disabled and no augmentation object. -/
def plainTemplate : TemplateConfig :=
  { includeTools := false, toolChoice := none, parallelToolCalls := none,
    augmentationType := none, actions := none, maxInputTokens := 100 }

/-- A template with tools enabled but no declared actions. -/
def noActionsTemplate : TemplateConfig :=
  { plainTemplate with includeTools := true }

/-- Registered handlers for the two declared actions of `toolsTemplate`. -/
def handlersFixture : Option (List (String × ActionHandlerEntry)) :=
  some [("alpha", { func := fun _ => "alpha-output" }),
        ("beta", { func := fun _ => "beta-output" })]

/-- A rendered transcript: a system prompt followed by a user message. -/
def renderFixture : RenderResult :=
  { tooLong := false, length := 10,
    output := [{ role := "system", content := some "sys" },
               { role := "user", content := some "hi" }] }

/-- A model client whose completion carries text and no tool calls. -/
def clientNoTools : List ChatMessage → CompletionMessage :=
  fun _ => { role := "assistant", content := some "hello" }

/-- A model client whose completion requests two sibling tool calls. -/
def clientTwoCalls : List ChatMessage → CompletionMessage :=
  fun _ => { role := "assistant", content := none,
             toolCalls := some
               [{ id := "id1", function := { name := "alpha", arguments := "argsEmpty" } },
                { id := "id2", function := { name := "beta", arguments := "argsEmpty" } }] }

/-- Claim C4, counterexample: with the submission flag stored as the truthy
string `"true"` (a value other than the boolean `True`), neither branch of
`_handle_action_tools` runs — the scratch policy keys are not stored and the
stale `OutputMap` is not reset — so "every other stored value is treated as
fresh" fails. -/
theorem c4_counterexample :
    truthyFlagMemory.submitToolOutputsVariable ≠ Json.bool true ∧
    handleActionTools truthyFlagMemory (some ToolChoice.autoChoice) (some true) =
      truthyFlagMemory ∧
    (handleActionTools truthyFlagMemory (some ToolChoice.autoChoice)
      (some true)).submitToolOutputsMap ≠ [] ∧
    (handleActionTools truthyFlagMemory (some ToolChoice.autoChoice)
      (some true)).tempToolChoice ≠ some ToolChoice.autoChoice := by
  refine ⟨fun h => ?_, rfl, fun h => ?_, fun h => ?_⟩
  · cases h
  · cases h
  · cases h

/-- Claim C4, amended: at turn start the deferred-submission path is taken
iff the persisted submission flag is exactly `true`; the fresh-turn path —
storing the turn's `tool_choice` and parallel-call policy into scratch state
and resetting both the `OutputMap` and `PendingOutputMessages` keys — is
taken iff the stored flag is falsy; a truthy stored value other than exactly
`true` takes neither path and leaves the state store untouched. -/
theorem c4_flag_dispatch (m : PlannerMemory) (tc : Option ToolChoice)
    (par : Option Bool) :
    (m.submitToolOutputsVariable.truthy = false →
      handleActionTools m tc par =
        { m with tempToolChoice := tc, tempParallelToolCalls := par,
                 submitToolOutputsMap := [], submitToolOutputsMessages := [] }) ∧
    (m.submitToolOutputsVariable = Json.bool true →
      handleActionTools m tc par = submitToolOutputsStep m) ∧
    (m.submitToolOutputsVariable.truthy = true →
      m.submitToolOutputsVariable ≠ Json.bool true →
      handleActionTools m tc par = m) := by
  refine ⟨fun h => ?_, fun h => ?_, fun ht hne => ?_⟩
  · simp [handleActionTools, h]
  · simp [handleActionTools, h, Json.truthy]
  · unfold handleActionTools
    cases hv : m.submitToolOutputsVariable with
    | bool b =>
      cases b
      · rw [hv] at ht; simp [Json.truthy] at ht
      · exact absurd hv hne
    | null => rw [hv] at ht; simp [Json.truthy] at ht
    | num n => rw [hv] at ht; simp [ht]
    | str s => rw [hv] at ht; simp [ht]
    | arr items => rw [hv] at ht; simp [ht]
    | obj entries => rw [hv] at ht; simp [ht]

/-- Claim C4, witness: a concrete fresh turn — flag absent, stale map —
stores the policy and resets both keys. -/
theorem c4_witness :
    handleActionTools freshMemory (some ToolChoice.autoChoice) (some true) =
      { freshMemory with tempToolChoice := some ToolChoice.autoChoice,
                         tempParallelToolCalls := some true,
                         submitToolOutputsMap := [],
                         submitToolOutputsMessages := [] } :=
  (c4_flag_dispatch freshMemory (some ToolChoice.autoChoice) (some true)).1 rfl

/-- The message-building loop of the deferred-submission branch is exactly a
`filterMap` over the host-supplied outputs against the stored map. -/
theorem buildToolOutputs_eq_filterMap (toolMap : List (String × String)) :
    ∀ outs : List (String × String),
      buildToolOutputs toolMap outs = outs.filterMap (fun kv =>
        (toolMap.lookup kv.1).map
          (fun id => { toolCallId := id, role := "tool", content := kv.2 }))
  | [] => rfl
  | (action, output) :: rest => by
    unfold buildToolOutputs
    by_cases hM : toolMap.isEmpty = true
    · have hMnil : toolMap = [] := by
        cases toolMap with
        | nil => rfl
        | cons p l => simp [List.isEmpty] at hM
      rw [if_pos hM, buildToolOutputs_eq_filterMap toolMap rest, hMnil]
      simp [List.lookup]
    · rw [if_neg hM]
      cases hL : toolMap.lookup action with
      | none =>
        rw [buildToolOutputs_eq_filterMap toolMap rest]
        simp [List.filterMap_cons, hL]
      | some id =>
        rw [buildToolOutputs_eq_filterMap toolMap rest]
        simp [List.filterMap_cons, hL]

/-- Claim C5: entering a turn with the submission flag exactly `true`, the
built tool-output messages are exactly those action names present in both
the host-supplied `action_outputs` and the stored `OutputMap` — one message
each, in order, tagged with the stored correlation id; if at least one was
built they are staged under `PendingOutputMessages` with the flag left
`true`; if none were built the flag becomes `false` and both keys are
emptied. -/
theorem c5_submission_resume (m : PlannerMemory) (tc : Option ToolChoice)
    (par : Option Bool) (h : m.submitToolOutputsVariable = Json.bool true) :
    buildToolOutputs m.submitToolOutputsMap (m.actionOutputs.getD []) =
      (m.actionOutputs.getD []).filterMap (fun kv =>
        (m.submitToolOutputsMap.lookup kv.1).map
          (fun id => { toolCallId := id, role := "tool", content := kv.2 })) ∧
    (buildToolOutputs m.submitToolOutputsMap (m.actionOutputs.getD []) ≠ [] →
      handleActionTools m tc par =
        { m with submitToolOutputsMessages :=
            buildToolOutputs m.submitToolOutputsMap (m.actionOutputs.getD []) } ∧
      (handleActionTools m tc par).submitToolOutputsVariable = Json.bool true) ∧
    (buildToolOutputs m.submitToolOutputsMap (m.actionOutputs.getD []) = [] →
      handleActionTools m tc par =
        { m with submitToolOutputsVariable := Json.bool false,
                 submitToolOutputsMap := [],
                 submitToolOutputsMessages := [] }) := by
  have hstep : handleActionTools m tc par = submitToolOutputsStep m := by
    simp [handleActionTools, h, Json.truthy]
  refine ⟨buildToolOutputs_eq_filterMap _ _, fun hne => ?_, fun hnil => ?_⟩
  · have hpos : 0 < (buildToolOutputs m.submitToolOutputsMap
        (m.actionOutputs.getD [])).length := List.length_pos.mpr hne
    constructor
    · rw [hstep]
      unfold submitToolOutputsStep
      simp only [if_pos hpos]
    · rw [hstep]
      unfold submitToolOutputsStep
      simp only [if_pos hpos]
      exact h
  · rw [hstep]
    unfold submitToolOutputsStep
    simp [hnil]

/-- Claim C5, witness: a concrete resume whose `action_outputs` cover both
stored map entries yields both messages, staged, with the flag kept. -/
theorem c5_witness :
    handleActionTools awaitingMemory none none =
      { awaitingMemory with submitToolOutputsMessages :=
          [{ toolCallId := "call-1", role := "tool", content := "42" },
           { toolCallId := "call-2", role := "tool", content := "ok" }] } := by
  have hb : buildToolOutputs awaitingMemory.submitToolOutputsMap
      (awaitingMemory.actionOutputs.getD []) =
      [{ toolCallId := "call-1", role := "tool", content := "42" },
       { toolCallId := "call-2", role := "tool", content := "ok" }] := rfl
  have h := ((c5_submission_resume awaitingMemory none none rfl).2.1
    (by rw [hb]; intro hc; cases hc)).1
  rw [hb] at h
  exact h

/-- When every call's arguments parse, the do-command loop succeeds and
yields one command per call, in order, pairing each call's function name
with its parsed arguments. -/
theorem buildDoCommands_ok_of_all (loads : String → Except String Json) :
    ∀ cs : List ActionCall,
      (∀ t ∈ cs, ∃ ps, loads t.function.arguments = Except.ok ps) →
      ∃ cmds, buildDoCommands loads cs = Except.ok cmds ∧
        cmds.length = cs.length ∧
        ∀ i : Nat, ∀ hi : i < cs.length, ∀ hj : i < cmds.length,
          ∃ ps, loads ((cs.get ⟨i, hi⟩).function.arguments) = Except.ok ps ∧
            cmds.get ⟨i, hj⟩ = PredictedCommand.doCommand
              ((cs.get ⟨i, hi⟩).function.name) ps := by
  intro cs
  induction cs with
  | nil =>
    intro _
    exact ⟨[], rfl, rfl, fun i hi _ => absurd hi (Nat.not_lt_zero i)⟩
  | cons t rest ih =>
    intro hall
    obtain ⟨ps, hps⟩ := hall t (List.mem_cons_self t rest)
    obtain ⟨cmds, hcm, hlen, hpt⟩ := ih (fun u hu => hall u (List.mem_cons_of_mem t hu))
    refine ⟨PredictedCommand.doCommand t.function.name ps :: cmds, ?_, by simp [hlen], ?_⟩
    · unfold buildDoCommands
      rw [hps, hcm]
      rfl
    · intro i hi hj
      cases i with
      | zero => exact ⟨ps, hps, rfl⟩
      | succ k =>
        exact hpt k (Nat.lt_of_succ_lt_succ hi) (Nat.lt_of_succ_lt_succ hj)

/-- If some call's arguments fail to parse, the do-command loop fails (with
the first such failure). -/
theorem buildDoCommands_error_of_bad (loads : String → Except String Json) :
    ∀ cs : List ActionCall,
      (∃ t ∈ cs, ∀ ps, loads t.function.arguments ≠ Except.ok ps) →
      ∃ e, buildDoCommands loads cs = Except.error e := by
  intro cs
  induction cs with
  | nil =>
    intro hbad
    obtain ⟨t, ht, _⟩ := hbad
    exact absurd ht (List.not_mem_nil t)
  | cons t rest ih =>
    intro hbad
    cases hdl : loads t.function.arguments with
    | error e =>
      refine ⟨e, ?_⟩
      unfold buildDoCommands
      rw [hdl]
      rfl
    | ok ps =>
      obtain ⟨u, hu, hbadu⟩ := hbad
      rcases List.mem_cons.mp hu with hq | hq
      · subst hq
        exact absurd hdl (hbadu ps)
      · obtain ⟨e, he⟩ := ih ⟨u, hq, hbadu⟩
        refine ⟨e, ?_⟩
        unfold buildDoCommands
        rw [hdl, he]
        rfl

/-- Claim C1: for a validated response, (1) when the actions-history key is
present and the content is a nonempty action-call list, the plan has one
`DoCommand` per call in call order — action the call's function name,
parameters the JSON-parse of its raw arguments — and a parse failure
propagates; (2) a nonempty textual content yields exactly one `SayCommand`
wrapping the full input message; (3) an absent message, absent content or
empty content yields a plan with zero commands. -/
theorem c1_create_plan_from_response (loads : String → Except String Json)
    (memory : AugMemory) (response : PromptResponse ToolsContent) :
    (∀ msg cs, response.message = some msg →
      msg.content = some (ToolsContent.calls cs) → cs ≠ [] →
      memory.actionsHistory.isSome = true →
      ((∀ t ∈ cs, ∃ ps, loads t.function.arguments = Except.ok ps) →
        ∃ cmds, createPlanFromResponse loads memory response =
            Except.ok ({ commands := cmds }, memory, response) ∧
          cmds.length = cs.length ∧
          ∀ i : Nat, ∀ hi : i < cs.length, ∀ hj : i < cmds.length,
            ∃ ps, loads ((cs.get ⟨i, hi⟩).function.arguments) = Except.ok ps ∧
              cmds.get ⟨i, hj⟩ = PredictedCommand.doCommand
                ((cs.get ⟨i, hi⟩).function.name) ps) ∧
      ((∃ t ∈ cs, ∀ ps, loads t.function.arguments ≠ Except.ok ps) →
        ∃ e, createPlanFromResponse loads memory response = Except.error e)) ∧
    (∀ msg s, response.message = some msg →
      msg.content = some (ToolsContent.text s) → s ≠ "" →
      createPlanFromResponse loads memory response =
        Except.ok ({ commands := [PredictedCommand.sayCommand msg] },
          memory, response)) ∧
    ((response.message = none ∨ ∃ msg, response.message = some msg ∧
        (msg.content = none ∨ ∃ c, msg.content = some c ∧ c.truthy = false)) →
      createPlanFromResponse loads memory response =
        Except.ok ({ commands := [] }, memory, response)) := by
  refine ⟨fun msg cs hm hc hne hh => ⟨fun hall => ?_, fun hbad => ?_⟩,
    fun msg s hm hc hs => ?_, fun hempty => ?_⟩
  · obtain ⟨cmds, hcm, hlen, hpt⟩ := buildDoCommands_ok_of_all loads cs hall
    refine ⟨cmds, ?_, hlen, hpt⟩
    have htr : (ToolsContent.calls cs).truthy = true := by
      cases cs with
      | nil => exact absurd rfl hne
      | cons a l => rfl
    simp [createPlanFromResponse, hm, hc, htr, hh, hcm]
    rfl
  · obtain ⟨e, he⟩ := buildDoCommands_error_of_bad loads cs hbad
    refine ⟨e, ?_⟩
    have htr : (ToolsContent.calls cs).truthy = true := by
      cases cs with
      | nil => exact absurd rfl hne
      | cons a l => rfl
    simp [createPlanFromResponse, hm, hc, htr, hh, he]
    rfl
  · have h1 : s.isEmpty = false := by
      cases hI : s.isEmpty
      · rfl
      · exact absurd ((String.isEmpty_iff s).mp hI) hs
    simp [createPlanFromResponse, hm, hc, ToolsContent.truthy, h1]
  · rcases hempty with hm | ⟨msg, hm, hc⟩
    · simp [createPlanFromResponse, hm]
    · rcases hc with hc | ⟨c, hc, hct⟩
      · simp [createPlanFromResponse, hm, hc]
      · simp [createPlanFromResponse, hm, hc, hct]

/-- Claim C1, witness: the two-call fixture response builds a two-command
plan through `c1_create_plan_from_response`. -/
theorem c1_witness :
    ∃ cmds, createPlanFromResponse loadsFixture historyMemory planResponse =
        Except.ok ({ commands := cmds }, historyMemory, planResponse) ∧
      cmds.length = 2 := by
  have h := ((c1_create_plan_from_response loadsFixture historyMemory
      planResponse).1 planMessage planCalls rfl rfl
      (by simp [planCalls]) rfl).1
    (by
      intro t ht
      simp only [planCalls, List.mem_cons, List.not_mem_nil, or_false] at ht
      rcases ht with hq | hq
      · subst hq; exact ⟨Json.obj [("a", Json.num 1)], rfl⟩
      · subst hq; exact ⟨Json.obj [("b", Json.num 1)], rfl⟩)
  obtain ⟨cmds, h1, h2, _⟩ := h
  exact ⟨cmds, h1, by rw [h2]; rfl⟩

/-- Claim C9: plan building is a pure function of the validated response and
the state snapshot — two runs on the same inputs return equal results — and
it performs no write: whenever it succeeds, the threaded memory and response
come back unchanged. -/
theorem c9_plan_builder_pure (loads : String → Except String Json)
    (memory : AugMemory) (response : PromptResponse ToolsContent) :
    createPlanFromResponse loads memory response =
      createPlanFromResponse loads memory response ∧
    ∀ p m r, createPlanFromResponse loads memory response = Except.ok (p, m, r) →
      m = memory ∧ r = response := by
  refine ⟨rfl, fun p m r h => ?_⟩
  unfold createPlanFromResponse at h
  cases hm : response.message with
  | none =>
    rw [hm] at h
    simp at h
    exact ⟨h.2.1.symm, h.2.2.symm⟩
  | some msg =>
    rw [hm] at h
    dsimp only at h
    cases hc : msg.content with
    | none =>
      rw [hc] at h
      simp at h
      exact ⟨h.2.1.symm, h.2.2.symm⟩
    | some c =>
      rw [hc] at h
      dsimp only at h
      by_cases hct : c.truthy = true
      · rw [if_pos hct] at h
        cases c with
        | calls toolCalls =>
          dsimp only at h
          by_cases hh : memory.actionsHistory.isSome = true
          · rw [if_pos hh] at h
            cases hb : buildDoCommands loads toolCalls with
            | ok cmds =>
              rw [hb] at h
              have h2 : (Except.ok ({ commands := cmds }, memory, response) :
                  Except String (Plan × AugMemory × PromptResponse ToolsContent)) =
                  Except.ok (p, m, r) := h
              injection h2 with h3
              simp only [Prod.mk.injEq] at h3
              exact ⟨h3.2.1.symm, h3.2.2.symm⟩
            | error e =>
              rw [hb] at h
              have h2 : (Except.error e :
                  Except String (Plan × AugMemory × PromptResponse ToolsContent)) =
                  Except.ok (p, m, r) := h
              exact Except.noConfusion h2
          · rw [if_neg hh] at h
            simp at h
            exact ⟨h.2.1.symm, h.2.2.symm⟩
        | text s =>
          simp at h
          exact ⟨h.2.1.symm, h.2.2.symm⟩
      · rw [if_neg hct] at h
        simp at h
        exact ⟨h.2.1.symm, h.2.2.symm⟩

/-- Claim C9, witness: twice-built plans on the fixture inputs agree and the
threaded state comes back unchanged on the concrete run. -/
theorem c9_witness :
    ({ actionsHistory := some (Json.arr []) } : AugMemory) = historyMemory ∧
    planResponse = planResponse := by
  have h := (c9_plan_builder_pure loadsFixture historyMemory planResponse).2
    { commands := [PredictedCommand.doCommand "alpha" (Json.obj [("a", Json.num 1)]),
                   PredictedCommand.doCommand "beta" (Json.obj [("b", Json.num 1)])] }
    { actionsHistory := some (Json.arr []) } planResponse rfl
  exact ⟨h.1.symm, h.2⟩

/-- Claim C2: evaluation at the claimed scenario. With tools `alpha` and
`beta` registered and three sibling calls of which the middle names the
unregistered `ghost`, `_handle_multiple_tool_calls` does not skip the call:
`next(tool for tool in tools if tool.name == tool_name)` has no default, so
the lookup raises `StopIteration` after resolving only the first sibling —
the turn aborts instead of producing two tool-output messages and one
further model invocation. -/
theorem c2_unregistered_tool_raises :
    handleMultipleToolCalls loadsFixture [alphaTool, betaTool] [] [] ghostCalls =
      Except.error PyErr.stopIteration := by
  rfl

/-- Claim C3, counterexample: the call to `visit` omits the schema-required
argument `"a"` (its parsed arguments are `(b, 1)`), yet because the source
only compares `len(required_args) > len(curr_args)` (1 > 1 is false) the
handler is invoked and a tool-output message is emitted. -/
theorem c3_counterexample :
    handleMultipleToolCalls loadsFixture [visitTool] [] [] [visitCall] =
      Except.ok ([ChatMessage.toolMessageParam "id1" "visited"], ["visit"]) := by
  rfl

/-- Claim C3, amended: a tool call is withheld from its handler when the
parsed JSON arguments contain strictly fewer entries than the tool's
schema-required list — in the general case the call is skipped (no output,
siblings proceed), in the pinned-function case the loop aborts with only the
dangling assistant message appended; the check compares only counts, so a
call omitting a required name while supplying at least as many other
arguments is executed. -/
theorem c3_count_based_skip :
    (∀ (loads : String → Except String Json) (tools : List OpenAIFunction)
        (messages : List ChatMessage) (trace : List String)
        (tc : ChatToolCall) (rest : List ChatToolCall) (f : OpenAIFunction)
        (ra ca : Json) (lenR lenC : Nat),
      tools.find? (fun t => t.name == tc.function.name) = some f →
      requiredArgsOf f = some ra → ra.truthy = true →
      loads tc.function.arguments = Except.ok ca →
      ra.pyLen = some lenR → ca.pyLen = some lenC → lenR > lenC →
      handleMultipleToolCalls loads tools messages trace (tc :: rest) =
        handleMultipleToolCalls loads tools messages trace rest) ∧
    (∀ (loads : String → Except String Json)
        (client : List ChatMessage → CompletionMessage)
        (parallel : Option Bool) (tools : List OpenAIFunction) (fuel : Nat)
        (current : CompletionMessage) (messages : List ChatMessage)
        (trace : List String) (extra : Nat) (functionName : String)
        (tc0 : ChatToolCall) (f : OpenAIFunction) (ra ca : Json)
        (lenR lenC : Nat),
      current.toolCalls = some [tc0] →
      tools.find? (fun t => t.name == functionName) = some f →
      requiredArgsOf f = some ra → ra.truthy = true →
      loads tc0.function.arguments = Except.ok ca →
      ra.pyLen = some lenR → ca.pyLen = some lenC → lenR > lenC →
      toolsLoop loads client (some (ToolChoice.pinned functionName)) parallel
          tools (fuel + 1) current messages trace extra =
        Except.ok ⟨current, messages ++ [ChatMessage.assistantToolCalls current],
          trace, extra⟩) := by
  constructor
  · intro loads tools messages trace tc rest f ra ca lenR lenC
      hfind hreq hrt hl hR hC hgt
    have hd : decide (lenR > lenC) = true := decide_eq_true hgt
    conv_lhs => unfold handleMultipleToolCalls
    simp [hfind, hl, Except.mapError, requiredCheck, hreq, hrt, hR, hC, hd]
  · intro loads client parallel tools fuel current messages trace extra
      functionName tc0 f ra ca lenR lenC hTc hfind hreq hrt hl hR hC hgt
    have hd : decide (lenR > lenC) = true := decide_eq_true hgt
    unfold toolsLoop
    rw [hTc]
    simp only [Option.getD_some]
    rw [if_neg (by intro hcon; simp at hcon)]
    rw [if_neg (by intro hcon; simp at hcon)]
    rw [if_neg (by simp [isNoneChoice])]
    simp only [Nat.add_one]
    simp [hfind, hl, Except.mapError, requiredCheck, hreq, hrt, hR, hC, hd]

/-- Claim C3, witness: a concrete call with zero parsed arguments against
the one-required-argument `visit` schema is skipped in the general case. -/
theorem c3_witness :
    handleMultipleToolCalls loadsFixture [visitTool] [] []
        [{ id := "id9", function := { name := "visit", arguments := "argsEmpty" } }] =
      handleMultipleToolCalls loadsFixture [visitTool] [] [] [] :=
  c3_count_based_skip.1 loadsFixture [visitTool] [] []
    { id := "id9", function := { name := "visit", arguments := "argsEmpty" } } []
    visitTool (Json.arr [Json.str "a"]) (Json.obj []) 1 0
    rfl rfl rfl rfl rfl rfl (by omega)

/-- Claim C6: with tools enabled, a missing action catalog, a missing/empty
handler registry, or an action/handler count mismatch each terminate
`complete_prompt` with status `tools_error` and an error text, with zero
model invocations and without reaching the renderer. -/
theorem c6_tools_config_errors (loads : String → Except String Json)
    (template : TemplateConfig)
    (tempTools : Option (List (String × ActionHandlerEntry)))
    (render : RenderResult) (client : List ChatMessage → CompletionMessage)
    (fuel : Nat) (hTools : template.includeTools = true) :
    ((template.actions.getD []).isEmpty = true →
      completePrompt loads template tempTools render client fuel =
        Except.ok ⟨{ status := "tools_error", error := some "Missing actions" },
          0, [], false⟩) ∧
    ((template.actions.getD []).isEmpty = false →
      (tempTools.getD []).isEmpty = true →
      completePrompt loads template tempTools render client fuel =
        Except.ok ⟨{ status := "tools_error", error := some "Missing tools handlers" },
          0, [], false⟩) ∧
    ((template.actions.getD []).isEmpty = false →
      (tempTools.getD []).isEmpty = false →
      (template.actions.getD []).length ≠ (tempTools.getD []).length →
      completePrompt loads template tempTools render client fuel =
        Except.ok ⟨{ status := "tools_error",
                     error := some "Number of actions does not match number of tool handlers" },
          0, [], false⟩) := by
  refine ⟨fun h1 => ?_, fun h1 h2 => ?_, fun h1 h2 h3 => ?_⟩
  · unfold completePrompt
    rw [if_pos (by rw [hTools, h1]; rfl)]
  · unfold completePrompt
    rw [if_neg (by rw [hTools, h1]; simp),
        if_pos (by rw [hTools, h2]; rfl)]
  · unfold completePrompt
    rw [if_neg (by rw [hTools, h1]; simp),
        if_neg (by rw [hTools, h2]; simp),
        if_pos (by rw [hTools]; simp [h3])]

/-- Claim C6, witness: tools enabled with no declared actions yields the
`tools_error` result before rendering and before any model call. -/
theorem c6_witness :
    completePrompt loadsFixture noActionsTemplate handlersFixture renderFixture
        clientNoTools 5 =
      Except.ok ⟨{ status := "tools_error", error := some "Missing actions" },
        0, [], false⟩ :=
  (c6_tools_config_errors loadsFixture noActionsTemplate handlersFixture
    renderFixture clientNoTools 5 rfl).1 rfl

/-- When the three tools-configuration checks and the overflow check pass,
`complete_prompt` proceeds to its main body. -/
theorem completePrompt_checks_pass (loads : String → Except String Json)
    (template : TemplateConfig)
    (tempTools : Option (List (String × ActionHandlerEntry)))
    (render : RenderResult) (client : List ChatMessage → CompletionMessage)
    (fuel : Nat)
    (h1 : (template.includeTools && (template.actions.getD []).isEmpty) = false)
    (h2 : (template.includeTools && (tempTools.getD []).isEmpty) = false)
    (h3 : (template.includeTools &&
      ((template.actions.getD []).length != (tempTools.getD []).length)) = false)
    (hR : render.tooLong = false) :
    completePrompt loads template tempTools render client fuel =
      completeMain loads template tempTools render client fuel := by
  unfold completePrompt
  rw [if_neg (by rw [h1]; simp), if_neg (by rw [h2]; simp),
      if_neg (by rw [h3]; simp), if_neg (by rw [hR]; simp)]

/-- When the loop guard is false the main body returns the first completion
after exactly one model invocation and no handler calls. -/
theorem completeMain_no_loop (loads : String → Except String Json)
    (template : TemplateConfig)
    (tempTools : Option (List (String × ActionHandlerEntry)))
    (render : RenderResult) (client : List ChatMessage → CompletionMessage)
    (fuel : Nat)
    (hguard : (augTypeIsNone template.augmentationType && template.includeTools
      && !((client (render.output.map toChatParam)).toolCalls.getD []).isEmpty) = false) :
    completeMain loads template tempTools render client fuel =
      Except.ok ⟨{ status := "success", input := responseInput render.output,
                   message := some (msgOfCompletion
                     (client (render.output.map toChatParam))) },
        1, [], true⟩ := by
  unfold completeMain
  simp only [hguard, Bool.false_eq_true, if_false]

/-- Inside the resolution loop, any of the three policy conditions —
parallel calls disallowed with more than one call, a pinned single function
with more than one call, or `tool_choice == "none"` — terminates the loop
at once, returning the current completion with no handler invocation, no
transcript growth and no further round-trip. -/
theorem toolsLoop_policy_exit (loads : String → Except String Json)
    (client : List ChatMessage → CompletionMessage)
    (toolChoice : Option ToolChoice) (parallel : Option Bool)
    (tools : List OpenAIFunction) (fuel : Nat) (current : CompletionMessage)
    (messages : List ChatMessage) (trace : List String) (extra : Nat)
    (tc0 : ChatToolCall) (rest : List ChatToolCall)
    (hTc : current.toolCalls.getD [] = tc0 :: rest)
    (hPol : (parallel.getD false = false ∧ rest ≠ []) ∨
            (isPinnedChoice toolChoice = true ∧ rest ≠ []) ∨
            isNoneChoice toolChoice = true) :
    toolsLoop loads client toolChoice parallel tools fuel current messages
        trace extra =
      Except.ok ⟨current, messages, trace, extra⟩ := by
  have hlen : rest ≠ [] → (tc0 :: rest).length > 1 := by
    intro h
    cases rest with
    | nil => exact absurd rfl h
    | cons a l => simp
  unfold toolsLoop
  rw [hTc]
  dsimp only
  rcases hPol with ⟨hp, hr⟩ | ⟨hp, hr⟩ | hp
  · rw [if_pos ⟨hp, hlen hr⟩]
  · by_cases hc1 : parallel.getD false = false ∧ (tc0 :: rest).length > 1
    · rw [if_pos hc1]
    · rw [if_neg hc1, if_pos ⟨hp, hlen hr⟩]
  · by_cases hc1 : parallel.getD false = false ∧ (tc0 :: rest).length > 1
    · rw [if_pos hc1]
    · by_cases hc2 : isPinnedChoice toolChoice = true ∧ (tc0 :: rest).length > 1
      · rw [if_neg hc1, if_pos hc2]
      · rw [if_neg hc1, if_neg hc2, if_pos hp]

/-- Claim C8: when the first completion carries no tool calls, the whole
turn makes exactly one model invocation, invokes no handler, and the
returned response is built from that first completion unchanged (same role,
content and context), with `success` status. -/
theorem c8_no_tool_calls_single_invocation (loads : String → Except String Json)
    (template : TemplateConfig)
    (tempTools : Option (List (String × ActionHandlerEntry)))
    (render : RenderResult) (client : List ChatMessage → CompletionMessage)
    (fuel : Nat)
    (h1 : (template.includeTools && (template.actions.getD []).isEmpty) = false)
    (h2 : (template.includeTools && (tempTools.getD []).isEmpty) = false)
    (h3 : (template.includeTools &&
      ((template.actions.getD []).length != (tempTools.getD []).length)) = false)
    (hR : render.tooLong = false)
    (hTc : ((client (render.output.map toChatParam)).toolCalls.getD []) = []) :
    completePrompt loads template tempTools render client fuel =
      Except.ok ⟨{ status := "success", input := responseInput render.output,
                   message := some (msgOfCompletion
                     (client (render.output.map toChatParam))) },
        1, [], true⟩ := by
  rw [completePrompt_checks_pass loads template tempTools render client fuel
    h1 h2 h3 hR]
  exact completeMain_no_loop loads template tempTools render client fuel
    (by rw [hTc]; simp)

/-- Claim C8, witness: a concrete turn whose completion is text-only makes
one invocation and echoes the completion. -/
theorem c8_witness :
    completePrompt loadsFixture plainTemplate handlersFixture renderFixture
        clientNoTools 5 =
      Except.ok ⟨{ status := "success", input := responseInput renderFixture.output,
                   message := some (msgOfCompletion
                     (clientNoTools (renderFixture.output.map toChatParam))) },
        1, [], true⟩ :=
  c8_no_tool_calls_single_invocation loadsFixture plainTemplate handlersFixture
    renderFixture clientNoTools 5 rfl rfl rfl rfl rfl

/-- Claim C10: the in-client resolution loop requires an augmentation whose
`augmentation_type` is `"none"`; under any other augmentation configuration
— a different type or no augmentation object at all — no handler is invoked
and the first completion is returned after exactly one model invocation,
whatever tool calls it carries. -/
theorem c10_loop_requires_none_augmentation (loads : String → Except String Json)
    (template : TemplateConfig)
    (tempTools : Option (List (String × ActionHandlerEntry)))
    (render : RenderResult) (client : List ChatMessage → CompletionMessage)
    (fuel : Nat)
    (h1 : (template.includeTools && (template.actions.getD []).isEmpty) = false)
    (h2 : (template.includeTools && (tempTools.getD []).isEmpty) = false)
    (h3 : (template.includeTools &&
      ((template.actions.getD []).length != (tempTools.getD []).length)) = false)
    (hR : render.tooLong = false)
    (hAug : augTypeIsNone template.augmentationType = false) :
    completePrompt loads template tempTools render client fuel =
      Except.ok ⟨{ status := "success", input := responseInput render.output,
                   message := some (msgOfCompletion
                     (client (render.output.map toChatParam))) },
        1, [], true⟩ := by
  rw [completePrompt_checks_pass loads template tempTools render client fuel
    h1 h2 h3 hR]
  exact completeMain_no_loop loads template tempTools render client fuel
    (by rw [hAug]; simp)

/-- Claim C10, witness: a `"sequence"`-type augmentation with tool calls in
the completion still yields a single invocation and no handler calls. -/
theorem c10_witness :
    completePrompt loadsFixture seqAugTemplate handlersFixture renderFixture
        clientTwoCalls 5 =
      Except.ok ⟨{ status := "success", input := responseInput renderFixture.output,
                   message := some (msgOfCompletion
                     (clientTwoCalls (renderFixture.output.map toChatParam))) },
        1, [], true⟩ :=
  c10_loop_requires_none_augmentation loadsFixture seqAugTemplate
    handlersFixture renderFixture clientTwoCalls 5 rfl rfl rfl rfl rfl

/-- Claim C7: when the first completion carries tool calls but a policy
boundary applies — more than one call with parallel execution disallowed,
more than one call with a pinned single-function `tool_choice`, or
`tool_choice == "none"` — the resolution loop terminates with zero handler
invocations and zero further round-trips, and that completion is returned
as-is with the non-error `success` status. -/
theorem c7_policy_termination (loads : String → Except String Json)
    (template : TemplateConfig)
    (tempTools : Option (List (String × ActionHandlerEntry)))
    (render : RenderResult) (client : List ChatMessage → CompletionMessage)
    (fuel : Nat) (tc0 : ChatToolCall) (rest : List ChatToolCall)
    (h1 : (template.includeTools && (template.actions.getD []).isEmpty) = false)
    (h2 : (template.includeTools && (tempTools.getD []).isEmpty) = false)
    (h3 : (template.includeTools &&
      ((template.actions.getD []).length != (tempTools.getD []).length)) = false)
    (hR : render.tooLong = false)
    (hAug : template.augmentationType = some "none")
    (hTools : template.includeTools = true)
    (hTc : (client (render.output.map toChatParam)).toolCalls.getD [] = tc0 :: rest)
    (hPol : (template.parallelToolCalls.getD false = false ∧ rest ≠ []) ∨
            (isPinnedChoice template.toolChoice = true ∧ rest ≠ []) ∨
            isNoneChoice template.toolChoice = true) :
    completePrompt loads template tempTools render client fuel =
      Except.ok ⟨{ status := "success", input := responseInput render.output,
                   message := some (msgOfCompletion
                     (client (render.output.map toChatParam))) },
        1, [], true⟩ := by
  rw [completePrompt_checks_pass loads template tempTools render client fuel
    h1 h2 h3 hR]
  unfold completeMain
  have hg : (augTypeIsNone template.augmentationType && template.includeTools
      && !((client (render.output.map toChatParam)).toolCalls.getD []).isEmpty) = true := by
    rw [hAug, hTools, hTc]
    rfl
  simp only [hg, if_true]
  rw [toolsLoop_policy_exit loads client template.toolChoice
    template.parallelToolCalls _ fuel _ _ _ _ tc0 rest hTc hPol]
  rfl

/-- Claim C7, witness: two sibling calls with parallel execution disallowed
terminate the loop with one total invocation, no handler calls and the first
completion echoed. -/
theorem c7_witness :
    completePrompt loadsFixture toolsTemplate handlersFixture renderFixture
        clientTwoCalls 5 =
      Except.ok ⟨{ status := "success", input := responseInput renderFixture.output,
                   message := some (msgOfCompletion
                     (clientTwoCalls (renderFixture.output.map toChatParam))) },
        1, [], true⟩ :=
  c7_policy_termination loadsFixture toolsTemplate handlersFixture renderFixture
    clientTwoCalls 5
    { id := "id1", function := { name := "alpha", arguments := "argsEmpty" } }
    [{ id := "id2", function := { name := "beta", arguments := "argsEmpty" } }]
    rfl rfl rfl rfl rfl rfl rfl
    (Or.inl ⟨rfl, by intro h; cases h⟩)
